import Mathlib

/-!
Shallow embedding of the statuser availability pipeline
(`cmd/pbackend/statuser.go` of pablomh/provisioning-backend).

The pipeline consumes availability-check requests, resolves credentials
(`processMessage`), fans out to one worker per cloud provider
(`checkSourceAvailabilityAWS` / `Azure` / `GCP`), and fans results into a
batching sender (`sendResults`).  The shutdown sequence lives in `statuser`.

External collaborators (the `clients`, `kafka` and `metrics` packages) are
not part of the sources; their calls are modelled as oracle parameters
(`Except` outcomes handed to each embedded function), following the spec's
external-interface contracts.
-/

namespace Statuser

/-- Error messages carried by Go `error` values. -/
abbrev ErrMsg := String

/-- Opaque principal (`identity.Principal`); only propagated, never inspected. -/
abbrev Identity := Nat

/-- `models.ProviderType`: the provider classification switched on by
`processMessage` (statuser.go lines 107-117). -/
inductive ProviderType where
  | aws
  | azure
  | gcp
  | noop
  | unknown
deriving DecidableEq, Repr

/-- `kafka.SourceResult` status values: `kafka.StatusAvaliable` (sic) and
`kafka.StatusUnavailable`. -/
inductive Status where
  | available
  | unavailable
deriving DecidableEq, Repr

/-- `clients.Authentication` as used by the statuser: the provider-type tag
and the source application id (`SourceApplictionID` in the Go source). -/
structure Authentication where
  providerType : ProviderType
  sourceApplicationID : String
deriving DecidableEq, Repr

/-- `SourceInfo` (statuser.go lines 43-49): what the router enqueues onto a
provider queue. -/
structure SourceInfo where
  authentication : Authentication
  sourceApplicationID : String
  identity : Identity
deriving DecidableEq, Repr

/-- `kafka.SourceResult` (the ProbeResult of the spec): what a worker sends
on `chSend`. -/
structure SourceResult where
  resourceID : String
  identity : Identity
  resourceType : String
  status : Status
  err : Option ErrMsg
deriving DecidableEq, Repr

/-- Failure kinds of the credential resolver (`sourcesClient.GetAuthentication`):
`clients.NotFoundErr` versus any other error. -/
inductive ResolveErr where
  | notFound
  | other (msg : ErrMsg)
deriving DecidableEq, Repr

/-- Observable output of one `processMessage` call: content enqueued on each
provider queue, the warning log records emitted, and the number of
`metrics.IncTotalInvalidAvailabilityCheckReqs` increments. -/
structure DispatchOutput where
  awsQ : List SourceInfo
  azureQ : List SourceInfo
  gcpQ : List SourceInfo
  warnLogs : List String
  invalidMetric : Nat
deriving DecidableEq, Repr

/-- A `DispatchOutput` that enqueues nothing. -/
def dropped (logs : List String) (invalid : Nat) : DispatchOutput :=
  ⟨[], [], [], logs, invalid⟩

/-- The decoded availability status message (`kafka.NewAvailabilityStatusMessage`):
only its source id is used. -/
structure AvailMsg where
  sourceID : String
deriving DecidableEq, Repr

/-- `processMessage` (statuser.go lines 65-118).  Oracle parameters:
`asmRes` is the outcome of decoding the message, `clientRes` the outcome of
`clients.GetSourcesClient`, `authRes` the outcome of
`sourcesClient.GetAuthentication`, `ident` the identity taken from the
context.  Returns the enqueues, warning logs, and invalid-request metric
increments the call performs. -/
def processMessage (asmRes : Except ErrMsg AvailMsg)
    (clientRes : Except ErrMsg Unit)
    (authRes : Except ResolveErr Authentication)
    (ident : Identity) : DispatchOutput :=
  match asmRes with
  | Except.error _ => dropped ["Could not get availability status message"] 0
  | Except.ok _ =>
    match clientRes with
    | Except.error _ => dropped ["Could not get sources client"] 0
    | Except.ok _ =>
      match authRes with
      | Except.error ResolveErr.notFound =>
          dropped ["Not found error from sources"] 1
      | Except.error (ResolveErr.other _) =>
          dropped ["Could not get authentication"] 1
      | Except.ok auth =>
        let s : SourceInfo :=
          ⟨auth, auth.sourceApplicationID, ident⟩
        match auth.providerType with
        | ProviderType.aws => ⟨[s], [], [], [], 0⟩
        | ProviderType.azure => ⟨[], [s], [], [], 0⟩
        | ProviderType.gcp => ⟨[], [], [s], [], 0⟩
        | ProviderType.noop => ⟨[], [], [], [], 0⟩
        | ProviderType.unknown =>
            dropped ["Authentication provider type is unknown"] 0

/-- Loop body of `checkSourceAvailabilityAzure` (statuser.go lines 124-140)
for one dequeued `SourceInfo`.  The probe is not implemented (marked
`TODO ... WIP` in the source): the body unconditionally sends one
`StatusAvaliable` result with no error.  Returns the results sent on
`chSend`, in order. -/
def checkOneAzure (s : SourceInfo) : List SourceResult :=
  [⟨s.sourceApplicationID, s.identity, "Application", Status.available, none⟩]

/-- Loop body of `checkSourceAvailabilityAWS` (statuser.go lines 147-169)
for one dequeued `SourceInfo`.  `ec2Res` is the oracle outcome of
`clients.GetEC2Client`: on error the body sends one `StatusUnavailable`
result carrying the error, otherwise one `StatusAvaliable` result with no
error.  Returns the results sent on `chSend`, in order. -/
def checkOneAWS (s : SourceInfo) (ec2Res : Except ErrMsg Unit) :
    List SourceResult :=
  match ec2Res with
  | Except.error e =>
      [⟨s.sourceApplicationID, s.identity, "Application", Status.unavailable, some e⟩]
  | Except.ok _ =>
      [⟨s.sourceApplicationID, s.identity, "Application", Status.available, none⟩]

/-- Trace of one iteration of the GCP worker body: the results sent on
`chSend`, whether `ListAllRegions` was invoked on the client value returned
by a failed `GetGCPClient` call, and whether that invocation panicked. -/
structure GCPRun where
  sends : List SourceResult
  listCalledOnFailedClient : Bool
  panicked : Bool
deriving DecidableEq, Repr

/-- Loop body of `checkSourceAvailabilityGCP` (statuser.go lines 176-206)
for one dequeued `SourceInfo`.  `clientRes` is the oracle outcome of
`clients.GetGCPClient` and `listRes` the oracle outcome of
`gcpClient.ListAllRegions` on a successfully created client.

The `clients` package is outside these sources; it is modelled from the
spec's resolver/probe contracts together with the Go convention that a
constructor returning a non-nil error returns a nil client interface, and
that invoking a method on a nil interface value panics.

The Go body has no `return` or `else` after the `GetGCPClient` error
branch: after sending the `StatusUnavailable` result it falls through to
`gcpClient.ListAllRegions(ctx)` on the nil client, which panics before any
further send. -/
def checkOneGCP (s : SourceInfo) (clientRes : Except ErrMsg Unit)
    (listRes : Except ErrMsg Unit) : GCPRun :=
  match clientRes with
  | Except.error e =>
      { sends := [⟨s.sourceApplicationID, s.identity, "Application",
                   Status.unavailable, some e⟩]
        listCalledOnFailedClient := true
        panicked := true }
  | Except.ok _ =>
    match listRes with
    | Except.error e =>
        { sends := [⟨s.sourceApplicationID, s.identity, "Application",
                     Status.unavailable, some e⟩]
          listCalledOnFailedClient := false
          panicked := false }
    | Except.ok _ =>
        { sends := [⟨s.sourceApplicationID, s.identity, "Application",
                     Status.available, none⟩]
          listCalledOnFailedClient := false
          panicked := false }

/-- An encoded outbound message (`kafka.GenericMessage`), tagged by the
`SourceResult` it encodes (`sr.GenericMessage(ctx)`). -/
abbrev GMsg := SourceResult

/-- One event serviced by the `select` of `sendResults`
(statuser.go lines 215-259): a result received on `chSend` together with
the oracle outcome of encoding it via `sr.GenericMessage`, a ticker tick,
or the cancellation of the context.  `sendOk` is the oracle outcome of the
`kafka.Send` call should this event trigger a flush. -/
inductive BEvent where
  | recv (sr : SourceResult) (enc : Except ErrMsg GMsg) (sendOk : Bool)
  | tick (sendOk : Bool)
  | done (sendOk : Bool)
deriving Repr

/-- Observable outcome of one `select` iteration of `sendResults`: the
batch buffer afterwards, the batch handed to `kafka.Send` (if any), whether
the loop returned, and which warnings were logged. -/
structure StepOut where
  messages : List GMsg
  flushed : Option (List GMsg)
  exited : Bool
  encDropLogged : Bool
  sendFailLogged : Bool
deriving DecidableEq, Repr

/-- One iteration of the `sendResults` event loop
(statuser.go lines 215-259), acting on the batch buffer `msgs` with batch
size `B` (the code passes 1024).  Mirrors the Go `select`:

* `chSend` case: encode the result; on encode failure log and `continue`
  with the buffer untouched; on success append, and if the buffer length
  reaches `B`, send it (logging on send failure) and reset to empty;
* ticker case: if the buffer is non-empty, send it and reset;
* `ctx.Done()` case: if the buffer is non-empty, send it; then return. -/
def sendStep (B : Nat) (msgs : List GMsg) (ev : BEvent) : StepOut :=
  match ev with
  | BEvent.recv _ (Except.error _) _ =>
      ⟨msgs, none, false, true, false⟩
  | BEvent.recv _ (Except.ok m) sendOk =>
      let msgs := msgs ++ [m]
      if B ≤ msgs.length then
        ⟨[], some msgs, false, false, !sendOk⟩
      else
        ⟨msgs, none, false, false, false⟩
  | BEvent.tick sendOk =>
      if msgs.isEmpty then
        ⟨msgs, none, false, false, false⟩
      else
        ⟨[], some msgs, false, false, !sendOk⟩
  | BEvent.done sendOk =>
      if msgs.isEmpty then
        ⟨msgs, none, true, false, false⟩
      else
        ⟨[], some msgs, true, false, !sendOk⟩

/-- How a provider worker leaves (or fails to leave) its `for ... range`
loop: normal exit through channel closure, blocked waiting on an open empty
channel, or aborted by a panic in the loop body. -/
inductive WorkerExit where
  | exitedLoop
  | blocked
  | panicked
deriving DecidableEq, Repr

/-- Trace of one worker's `for s := range ch` loop: everything it sent on
`chSend` and how the loop ended. -/
structure WorkerRun where
  sends : List SourceResult
  exit : WorkerExit
deriving DecidableEq, Repr

/-- The `for s := range ch` loop shared by the three workers, with the
per-item body abstracted: `body x` gives the results the body sends and
whether it panics.  `items` are the values enqueued on the worker's channel
and `closed` says whether the channel has been closed after them.  Go
range-loop semantics: each enqueued item is received in order; a panic
propagates out of the loop; once the channel is drained the loop exits if
the channel is closed and blocks otherwise.  The loop never consults the
context, so no cancellation parameter appears here. -/
def workerLoop (body : α → List SourceResult × Bool) :
    List α → Bool → WorkerRun
  | [], closed => ⟨[], if closed then WorkerExit.exitedLoop else WorkerExit.blocked⟩
  | x :: xs, closed =>
      let b := body x
      if b.2 then
        ⟨b.1, WorkerExit.panicked⟩
      else
        let rest := workerLoop body xs closed
        ⟨b.1 ++ rest.sends, rest.exit⟩

/-- `checkSourceAvailabilityAWS` (statuser.go lines 143-170) run on the
queue contents `items` (each paired with its `GetEC2Client` oracle
outcome).  `cancelled` is the state of the context the worker was given; it
is threaded to show the loop does not read it. -/
def awsWorkerRun (cancelled : Bool)
    (items : List (SourceInfo × Except ErrMsg Unit)) (closed : Bool) :
    WorkerRun :=
  let _ := cancelled
  workerLoop (fun it => (checkOneAWS it.1 it.2, false)) items closed

/-- `checkSourceAvailabilityAzure` (statuser.go lines 120-141) run on the
queue contents `items`. -/
def azureWorkerRun (cancelled : Bool) (items : List SourceInfo)
    (closed : Bool) : WorkerRun :=
  let _ := cancelled
  workerLoop (fun s => (checkOneAzure s, false)) items closed

/-- The GCP worker's per-item body viewed through the `workerLoop`
abstraction: the results it sends and whether it panics. -/
def gcpBody (it : SourceInfo × Except ErrMsg Unit × Except ErrMsg Unit) :
    List SourceResult × Bool :=
  let g := checkOneGCP it.1 it.2.1 it.2.2
  (g.sends, g.panicked)

/-- `checkSourceAvailabilityGCP` (statuser.go lines 172-207) run on the
queue contents `items` (each with its `GetGCPClient` and `ListAllRegions`
oracle outcomes).  The body panics exactly when `GetGCPClient` fails (see
`checkOneGCP`). -/
def gcpWorkerRun (cancelled : Bool)
    (items : List (SourceInfo × Except ErrMsg Unit × Except ErrMsg Unit))
    (closed : Bool) : WorkerRun :=
  let _ := cancelled
  workerLoop gcpBody items closed

/-- An item whose `GetGCPClient` oracle outcome fails. -/
def gcpItemPanics
    (it : SourceInfo × Except ErrMsg Unit × Except ErrMsg Unit) : Bool :=
  match it.2.1 with
  | Except.error _ => true
  | Except.ok _ => false

/-- Modelled from the spec: the `kafka` package is outside these sources,
so the Go zero value of `kafka.SourceResult` (what a receive on a closed,
drained channel yields) is modelled with empty strings, identity 0 and the
status enum's first value; the concrete choice of the status is never
reached by the theorems below. -/
def zeroSourceResult : SourceResult :=
  ⟨"", 0, "", Status.available, none⟩

/-- Joint state of the shared result channel `chSend` and the `sendResults`
goroutine during shutdown: the buffered channel contents, whether `chSend`
has been closed, whether `cancelCtx` has been cancelled
(`consumerCancelFunc()`, statuser.go line 358, runs before any channel is
closed or drained), the batch buffer, the batches handed to `kafka.Send`,
and whether `sendResults` has returned. -/
structure CPipe where
  queue : List SourceResult
  closed : Bool
  cancelled : Bool
  buf : List GMsg
  flushedBatches : List (List GMsg)
  exited : Bool
deriving DecidableEq, Repr

/-- The three branches of the `select` in `sendResults`. -/
inductive Branch where
  | recv
  | tick
  | done
deriving DecidableEq, Repr

/-- Which `select` branches are ready in a given state, per Go semantics:
`<-chSend` is ready when the channel holds a value or is closed (a closed
channel yields its zero value immediately); the ticker can always become
ready; `<-ctx.Done()` is ready exactly when the context is cancelled. -/
def branchReady (st : CPipe) (br : Branch) : Bool :=
  match br with
  | Branch.recv => !st.queue.isEmpty || st.closed
  | Branch.tick => true
  | Branch.done => st.cancelled

/-- One scheduler step of `sendResults` during shutdown: if the goroutine
has returned or the chosen branch is not ready, nothing happens; otherwise
the branch body from `sendStep` runs (with encoding and transmission
succeeding, the favourable oracle).  The `chSend` case consumes the head of
the channel buffer, or the zero value if the channel is closed and drained. -/
def shutdownStep (B : Nat) (st : CPipe) (br : Branch) : CPipe :=
  if st.exited then st
  else if branchReady st br then
    let ev : BEvent :=
      match br with
      | Branch.recv =>
          let sr := st.queue.headD zeroSourceResult
          BEvent.recv sr (Except.ok sr) true
      | Branch.tick => BEvent.tick true
      | Branch.done => BEvent.done true
    let out := sendStep B st.buf ev
    { queue := if br = Branch.recv then st.queue.tail else st.queue
      closed := st.closed
      cancelled := st.cancelled
      buf := out.messages
      flushedBatches :=
        st.flushedBatches ++ (match out.flushed with
                              | some b => [b]
                              | none => [])
      exited := out.exited }
  else st

/-- Run `sendResults` under a schedule of `select` choices. -/
def shutdownRun (B : Nat) (st : CPipe) (sched : List Branch) : CPipe :=
  sched.foldl (shutdownStep B) st

/-- The steps of the `statuser` shutdown sequence
(statuser.go lines 357-369), in program order: cancel the consumer context
and wait on `receiverWG`; close the three provider channels and wait on
`processingWG`; close `chSend` and wait on `senderWG`. -/
inductive ShutdownAction where
  | cancelConsumer
  | waitReceiver
  | closeAws
  | closeAzure
  | closeGcp
  | waitProcessing
  | closeSend
  | waitSender
deriving DecidableEq, Repr

/-- The shutdown sequence exactly as `statuser` performs it. -/
def shutdownSequence : List ShutdownAction :=
  [ShutdownAction.cancelConsumer, ShutdownAction.waitReceiver,
   ShutdownAction.closeAws, ShutdownAction.closeAzure, ShutdownAction.closeGcp,
   ShutdownAction.waitProcessing,
   ShutdownAction.closeSend, ShutdownAction.waitSender]

/-- Producer liveness during shutdown: whether the consumer goroutine (the
sole producer of the provider channels, via `processMessage` inside
`kafka.Consume`) may still be running, and whether any worker goroutine
(the producers of `chSend`) may still be running.  `sync.WaitGroup.Wait`
returning means the awaited goroutines have returned. -/
structure ProducerState where
  consumerLive : Bool
  workersLive : Bool
deriving DecidableEq, Repr

/-- Effect of a shutdown action on producer liveness. -/
def applyAction (ps : ProducerState) (a : ShutdownAction) : ProducerState :=
  match a with
  | ShutdownAction.waitReceiver => { ps with consumerLive := false }
  | ShutdownAction.waitProcessing => { ps with workersLive := false }
  | _ => ps

/-- A close action is safe in a state when every producer of the channel
being closed has stopped: the provider channels require the consumer to
have stopped, `chSend` requires all workers to have stopped. -/
def closeSafe (ps : ProducerState) (a : ShutdownAction) : Bool :=
  match a with
  | ShutdownAction.closeAws => !ps.consumerLive
  | ShutdownAction.closeAzure => !ps.consumerLive
  | ShutdownAction.closeGcp => !ps.consumerLive
  | ShutdownAction.closeSend => !ps.workersLive
  | _ => true

/-- Every close in an action sequence happens with its producers stopped. -/
def allClosesSafe (ps : ProducerState) : List ShutdownAction → Bool
  | [] => true
  | a :: rest => closeSafe ps a && allClosesSafe (applyAction ps a) rest

/-- A sample authentication used for concrete evaluations. -/
def sampleAuth : Authentication := ⟨ProviderType.gcp, "app-1"⟩

/-- A sample queue item used for concrete evaluations. -/
def sampleInfo : SourceInfo := ⟨sampleAuth, "app-1", 7⟩

/-- A sample encoded message. -/
def sampleMsgA : GMsg := ⟨"app-1", 7, "Application", Status.available, none⟩

/-- Another sample encoded message. -/
def sampleMsgB : GMsg :=
  ⟨"app-2", 8, "Application", Status.unavailable, some "timeout"⟩

/-- A `chSend` event whose encoding succeeds, used to exercise a
full-buffer flush concretely. -/
def sampleRecvOk : BEvent := BEvent.recv sampleMsgB (Except.ok sampleMsgB) true

/-- A result sitting in `chSend` when shutdown begins. -/
def lostResult : SourceResult :=
  ⟨"app-42", 9, "Application", Status.available, none⟩

/-- Reachable state during the `statuser` shutdown: `consumerCancelFunc()`
(line 358) has cancelled the context shared with `sendResults`, a worker
has meanwhile enqueued `lostResult` on `chSend`, the batch buffer is empty,
and `chSend` is not yet closed. -/
def shutdownLossState : CPipe :=
  { queue := [lostResult]
    closed := false
    cancelled := true
    buf := []
    flushedBatches := []
    exited := false }

/-- State after `close(chSend)` with the channel drained and the context
not yet cancelled (hypothetical, to probe how the loop reacts to closure). -/
def closedDrainedState : CPipe :=
  { queue := []
    closed := true
    cancelled := false
    buf := []
    flushedBatches := []
    exited := false }

/-- A GCP queue item whose `GetGCPClient` call fails. -/
def gcpBadItem : SourceInfo × Except ErrMsg Unit × Except ErrMsg Unit :=
  (sampleInfo, Except.error "invalid credentials", Except.ok ())

/-- A GCP queue item whose client creation and probe both succeed. -/
def gcpGoodItem : SourceInfo × Except ErrMsg Unit × Except ErrMsg Unit :=
  (sampleInfo, Except.ok (), Except.ok ())

/-! ## Helper lemmas on the worker loop -/

/-- If no loop body panics, the worker loop exits exactly when its channel
is closed, and blocks otherwise. -/
lemma workerLoop_exit_of_no_panic {α : Type} (body : α → List SourceResult × Bool)
    (h : ∀ x, (body x).2 = false) (items : List α) (closed : Bool) :
    (workerLoop body items closed).exit =
      (if closed then WorkerExit.exitedLoop else WorkerExit.blocked) := by
  induction items with
  | nil => rfl
  | cons x xs ih => simp [workerLoop, h x, ih]

/-- If no loop body panics, the worker loop processes every enqueued item,
in order. -/
lemma workerLoop_sends_of_no_panic {α : Type} (body : α → List SourceResult × Bool)
    (h : ∀ x, (body x).2 = false) (items : List α) (closed : Bool) :
    (workerLoop body items closed).sends =
      (items.map (fun x => (body x).1)).flatten := by
  induction items with
  | nil => rfl
  | cons x xs ih => simp [workerLoop, h x, ih]

/-- The worker loop ends in a panic exactly when some enqueued item's body
panics; otherwise closure alone decides the exit. -/
lemma workerLoop_exit_iff_panic {α : Type} (body : α → List SourceResult × Bool)
    (items : List α) (closed : Bool) :
    (workerLoop body items closed).exit =
      (if items.any (fun x => (body x).2) then WorkerExit.panicked
       else if closed then WorkerExit.exitedLoop else WorkerExit.blocked) := by
  induction items with
  | nil => rfl
  | cons x xs ih =>
    by_cases hx : (body x).2
    · simp [workerLoop, hx]
    · simp [workerLoop, hx, ih]

/-- The GCP body panics exactly on items whose `GetGCPClient` outcome is an
error. -/
lemma gcpBody_snd
    (it : SourceInfo × Except ErrMsg Unit × Except ErrMsg Unit) :
    (gcpBody it).2 = gcpItemPanics it := by
  obtain ⟨s, c, l⟩ := it
  cases c <;> cases l <;> rfl

/-! ## Claim theorems -/

/-- Claim C2: every provider worker body sends exactly one result on
`chSend` per dequeued `SourceInfo` — never zero and never more than one —
whatever the outcomes of client creation and of the probe (for GCP the
client-creation failure path sends its one result and then panics before
any further send, so the count still stands). -/
theorem worker_sends_exactly_one (s : SourceInfo)
    (ec2Res clientRes listRes : Except ErrMsg Unit) :
    (checkOneAWS s ec2Res).length = 1 ∧
    (checkOneAzure s).length = 1 ∧
    (checkOneGCP s clientRes listRes).sends.length = 1 := by
  refine ⟨?_, rfl, ?_⟩
  · cases ec2Res <;> rfl
  · cases clientRes <;> cases listRes <;> rfl

/-- Claim C3: in every worker body, a failing call yields a
`StatusUnavailable` result carrying the failure cause, and a succeeding
probe yields a `StatusAvaliable` result with no error; the Azure body has
its probe unimplemented and always reports availability with no error. -/
theorem worker_status_classification (s : SourceInfo) (e : ErrMsg)
    (listRes : Except ErrMsg Unit) :
    checkOneAWS s (Except.error e) =
      [⟨s.sourceApplicationID, s.identity, "Application", Status.unavailable, some e⟩] ∧
    checkOneAWS s (Except.ok ()) =
      [⟨s.sourceApplicationID, s.identity, "Application", Status.available, none⟩] ∧
    checkOneAzure s =
      [⟨s.sourceApplicationID, s.identity, "Application", Status.available, none⟩] ∧
    (checkOneGCP s (Except.ok ()) (Except.error e)).sends =
      [⟨s.sourceApplicationID, s.identity, "Application", Status.unavailable, some e⟩] ∧
    (checkOneGCP s (Except.ok ()) (Except.ok ())).sends =
      [⟨s.sourceApplicationID, s.identity, "Application", Status.available, none⟩] ∧
    (checkOneGCP s (Except.error e) listRes).sends =
      [⟨s.sourceApplicationID, s.identity, "Application", Status.unavailable, some e⟩] := by
  refine ⟨rfl, rfl, rfl, rfl, rfl, ?_⟩
  cases listRes <;> rfl

/-- Claim C4: when `GetAuthentication` fails, `processMessage` enqueues
nothing on any provider queue, emits exactly one warning record, and
increments the invalid-request metric — for the not-found kind and for
every other kind alike. -/
theorem resolver_failure_dispatch (asm : AvailMsg) (ident : Identity)
    (m : ErrMsg) :
    processMessage (Except.ok asm) (Except.ok ())
        (Except.error ResolveErr.notFound) ident =
      ⟨[], [], [], ["Not found error from sources"], 1⟩ ∧
    processMessage (Except.ok asm) (Except.ok ())
        (Except.error (ResolveErr.other m)) ident =
      ⟨[], [], [], ["Could not get authentication"], 1⟩ :=
  ⟨rfl, rfl⟩

/-- Claim C5: on successful resolution, `processMessage` enqueues the
`SourceInfo` on exactly the queue matching the provider type for AWS,
Azure and GCP; a `Noop` provider type enqueues nothing and logs nothing;
an `Unknown` provider type enqueues nothing and emits exactly one warning
record. -/
theorem dispatch_by_provider_type (asm : AvailMsg) (appID : String)
    (ident : Identity) :
    processMessage (Except.ok asm) (Except.ok ())
        (Except.ok ⟨ProviderType.aws, appID⟩) ident =
      ⟨[⟨⟨ProviderType.aws, appID⟩, appID, ident⟩], [], [], [], 0⟩ ∧
    processMessage (Except.ok asm) (Except.ok ())
        (Except.ok ⟨ProviderType.azure, appID⟩) ident =
      ⟨[], [⟨⟨ProviderType.azure, appID⟩, appID, ident⟩], [], [], 0⟩ ∧
    processMessage (Except.ok asm) (Except.ok ())
        (Except.ok ⟨ProviderType.gcp, appID⟩) ident =
      ⟨[], [], [⟨⟨ProviderType.gcp, appID⟩, appID, ident⟩], [], 0⟩ ∧
    processMessage (Except.ok asm) (Except.ok ())
        (Except.ok ⟨ProviderType.noop, appID⟩) ident =
      ⟨[], [], [], [], 0⟩ ∧
    processMessage (Except.ok asm) (Except.ok ())
        (Except.ok ⟨ProviderType.unknown, appID⟩) ident =
      ⟨[], [], [], ["Authentication provider type is unknown"], 0⟩ :=
  ⟨rfl, rfl, rfl, rfl, rfl⟩

/-- Claim C9 (refuted, code bug): when `GetGCPClient` fails, the GCP worker
body does not stop at its error branch — it falls through and invokes
`ListAllRegions` on the nil client obtained from the failed call, which
panics; on a successful client creation no such invocation happens. -/
theorem gcp_probe_called_on_failed_client :
    (checkOneGCP sampleInfo (Except.error "invalid credentials")
        (Except.ok ())).listCalledOnFailedClient = true ∧
    (checkOneGCP sampleInfo (Except.error "invalid credentials")
        (Except.ok ())).panicked = true ∧
    (checkOneGCP sampleInfo (Except.ok ())
        (Except.ok ())).listCalledOnFailedClient = false :=
  ⟨rfl, rfl, rfl⟩

/-- Claim C10: when encoding a dequeued result fails, the `sendResults`
iteration logs the failure and continues: the batch buffer is exactly what
it was, nothing is flushed, the loop does not exit, and the dropped result
is never appended, so it can never appear in a batch. -/
theorem encode_failure_leaves_buffer (B : Nat) (msgs : List GMsg)
    (sr : SourceResult) (e : ErrMsg) (sendOk : Bool) :
    sendStep B msgs (BEvent.recv sr (Except.error e) sendOk) =
      ⟨msgs, none, false, true, false⟩ :=
  rfl

/-- Claim C7: in the `statuser` shutdown sequence, every channel close
happens only after its producers have been waited for: the consumer stops
(receiverWG) before the provider channels close, and all workers stop
(processingWG) before `chSend` closes. -/
theorem shutdown_close_ordering :
    allClosesSafe ⟨true, true⟩ shutdownSequence = true := by
  decide

/-- Claim C6: starting from a batch buffer strictly below `batchSize` (as
every reachable buffer is, the loop starting empty), one `sendResults`
iteration flushes only batches of at most `batchSize` messages, leaves the
buffer empty after any flush (whether or not `kafka.Send` succeeds), keeps
the buffer strictly below `batchSize` whenever the loop continues, and
flushes immediately — with the whole buffer — when an append makes the
buffer length reach `batchSize`. -/
theorem batcher_flush_invariant (B : Nat) (msgs : List GMsg) (ev : BEvent)
    (hB : 1 ≤ B) (hlen : msgs.length < B) :
    (∀ b, (sendStep B msgs ev).flushed = some b →
        b.length ≤ B ∧ (sendStep B msgs ev).messages = []) ∧
    (sendStep B msgs ev).messages.length < B ∧
    (∀ sr m sendOk, ev = BEvent.recv sr (Except.ok m) sendOk →
        msgs.length + 1 = B →
        (sendStep B msgs ev).flushed = some (msgs ++ [m])) := by
  cases ev with
  | recv sr enc sendOk =>
    cases enc with
    | error e =>
      refine ⟨?_, ?_, ?_⟩
      · intro b hb
        simp [sendStep] at hb
      · simpa [sendStep] using hlen
      · intro sr' m sendOk' hev
        simp at hev
    | ok m =>
      by_cases h : B ≤ msgs.length + 1
      · refine ⟨?_, ?_, ?_⟩
        · intro b hb
          simp [sendStep, h] at hb
          subst hb
          simp [sendStep, h]
          omega
        · simp [sendStep, h]
          omega
        · intro sr' m' sendOk' hev hfull
          simp at hev
          obtain ⟨-, hm, -⟩ := hev
          subst hm
          simp [sendStep, h]
      · refine ⟨?_, ?_, ?_⟩
        · intro b hb
          simp [sendStep, h] at hb
        · simp [sendStep, h]
          omega
        · intro sr' m' sendOk' hev hfull
          omega
  | tick sendOk =>
    refine ⟨?_, ?_, ?_⟩
    · intro b hb
      by_cases h : msgs.isEmpty
      · simp [sendStep, h] at hb
      · simp [sendStep, h] at hb ⊢
        subst hb
        omega
    · by_cases h : msgs.isEmpty
      · simpa [sendStep, h] using hlen
      · simp [sendStep, h]
        omega
    · intro sr' m' sendOk' hev
      exact BEvent.noConfusion hev
  | done sendOk =>
    refine ⟨?_, ?_, ?_⟩
    · intro b hb
      by_cases h : msgs.isEmpty
      · simp [sendStep, h] at hb
      · simp [sendStep, h] at hb ⊢
        subst hb
        omega
    · by_cases h : msgs.isEmpty
      · simpa [sendStep, h] using hlen
      · simp [sendStep, h]
        omega
    · intro sr' m' sendOk' hev
      exact BEvent.noConfusion hev

/-- Witness for `batcher_flush_invariant`: with `batchSize` 2 and one
buffered message, receiving a second successfully encoded message triggers
a full-buffer flush of both messages, leaving the buffer empty. -/
theorem batcher_flush_invariant_witness :
    ([sampleMsgA, sampleMsgB] : List GMsg).length ≤ 2 ∧
    (sendStep 2 [sampleMsgA] sampleRecvOk).messages = [] :=
  (batcher_flush_invariant 2 [sampleMsgA] sampleRecvOk
      (by decide) (by decide)).1 [sampleMsgA, sampleMsgB] rfl

/-- Claim C1 (refuted, code bug): `statuser` cancels the context shared
with `sendResults` (line 358) before any queue is drained or closed, and
the `sendResults` loop exits on `ctx.Done()` — it has no case observing
closure of `chSend`.  From the reachable state `shutdownLossState` (one
result enqueued on `chSend`, context already cancelled), the `select` may
pick the `ctx.Done()` branch: the loop exits with no batch ever flushed and
the enqueued result still sitting in the channel, so the result is never
included in any batch.  Moreover, even once `chSend` is closed and drained,
the receive branch does not end the loop — it injects the channel's zero
value into the batch buffer instead. -/
theorem batcher_cancel_drops_enqueued_result :
    (shutdownRun 1024 shutdownLossState [Branch.done]).exited = true ∧
    (shutdownRun 1024 shutdownLossState [Branch.done]).flushedBatches = [] ∧
    (shutdownRun 1024 shutdownLossState [Branch.done]).queue = [lostResult] ∧
    (shutdownStep 1024 closedDrainedState Branch.recv).exited = false ∧
    (shutdownStep 1024 closedDrainedState Branch.recv).buf = [zeroSourceResult] := by
  refine ⟨rfl, rfl, rfl, ?_, ?_⟩ <;> rfl

/-- Counterexample to claim C8 as stated: the GCP worker, given a closed
queue holding an item whose `GetGCPClient` call fails followed by a second
item, exits its loop by panic after processing only the first item — the
queue was not drained when the loop ended (and with an open queue the same
panic exit happens). -/
theorem gcp_worker_early_exit :
    (gcpWorkerRun false [gcpBadItem, gcpGoodItem] true).exit =
      WorkerExit.panicked ∧
    (gcpWorkerRun false [gcpBadItem, gcpGoodItem] true).sends.length = 1 ∧
    (gcpWorkerRun false [gcpBadItem] false).exit = WorkerExit.panicked :=
  ⟨rfl, rfl, rfl⟩

/-- Claim C8 as amended: the AWS and Azure workers exit their range loop
exactly when their queue is closed, after processing every enqueued item,
and block otherwise; the GCP worker behaves the same except that it aborts
by panic when some enqueued item's client creation fails; for all three,
the cancellation state of the context never affects the run. -/
theorem worker_exit_amended (cancelled : Bool)
    (awsItems : List (SourceInfo × Except ErrMsg Unit))
    (azureItems : List SourceInfo)
    (gcpItems : List (SourceInfo × Except ErrMsg Unit × Except ErrMsg Unit))
    (closed : Bool) :
    (awsWorkerRun cancelled awsItems closed).exit =
      (if closed then WorkerExit.exitedLoop else WorkerExit.blocked) ∧
    (awsWorkerRun cancelled awsItems closed).sends =
      (awsItems.map (fun it => checkOneAWS it.1 it.2)).flatten ∧
    (azureWorkerRun cancelled azureItems closed).exit =
      (if closed then WorkerExit.exitedLoop else WorkerExit.blocked) ∧
    (azureWorkerRun cancelled azureItems closed).sends =
      (azureItems.map checkOneAzure).flatten ∧
    (gcpWorkerRun cancelled gcpItems closed).exit =
      (if gcpItems.any gcpItemPanics then WorkerExit.panicked
       else if closed then WorkerExit.exitedLoop else WorkerExit.blocked) ∧
    awsWorkerRun cancelled awsItems closed =
      awsWorkerRun false awsItems closed ∧
    azureWorkerRun cancelled azureItems closed =
      azureWorkerRun false azureItems closed ∧
    gcpWorkerRun cancelled gcpItems closed =
      gcpWorkerRun false gcpItems closed := by
  refine ⟨?_, ?_, ?_, ?_, ?_, rfl, rfl, rfl⟩
  · exact workerLoop_exit_of_no_panic _ (fun _ => rfl) awsItems closed
  · exact workerLoop_sends_of_no_panic _ (fun _ => rfl) awsItems closed
  · exact workerLoop_exit_of_no_panic _ (fun _ => rfl) azureItems closed
  · exact workerLoop_sends_of_no_panic _ (fun _ => rfl) azureItems closed
  · show (workerLoop gcpBody gcpItems closed).exit = _
    rw [workerLoop_exit_iff_panic]
    simp only [gcpBody_snd]

end Statuser
